import Mathlib

/-
Verification of the authentication/session-token subsystem of the
fastapi-ecommerce repository (src/app/routers/users.py), over a shallow
embedding of the four handlers: create_user, login, refresh_access_token
and rotate_refresh_token. The credential hasher, the token codec and the
token issuer live in app/auth.py and app/config.py, which are not part of
src/; those are modelled from the spec, as marked on each definition.
-/

namespace Ecommerce

/-- Modelled from the spec: the digest a plaintext re-hashes to under a given
salt (Credential Hasher, app/auth.py is not under src/). The digest is kept
abstract as the pair of the salt and the plaintext, which makes re-hashing
deterministic under a fixed salt and collision-free, as the spec assumes
when it states that verify against any other plaintext is false. -/
structure Digest where
  salt : Nat
  body : String
deriving DecidableEq, Repr

/-- A stored password hash: the salt together with the digest computed under
that salt. One-way at the model boundary: the handlers never read `body`. -/
structure HashString where
  salt : Nat
  digest : Digest
deriving DecidableEq, Repr

/-- Modelled from the spec: re-hash a plaintext under a salt. -/
def pwDigest (salt : Nat) (plaintext : String) : Digest :=
  { salt := salt, body := plaintext }

/-- Modelled from the spec: hash(plaintext) is a salted one-way hash; the
salt, random in the real hasher, is an explicit argument here. -/
def hash_password (plaintext : String) (salt : Nat) : HashString :=
  { salt := salt, digest := pwDigest salt plaintext }

/-- Modelled from the spec: verify(plaintext, hash_string) is true iff the
plaintext re-hashes to an equivalent digest under the stored salt. -/
def verify_password (plaintext : String) (h : HashString) : Bool :=
  pwDigest h.salt plaintext == h.digest

/-- Identity record, from the UserModel columns the handlers read:
id, email, hashed_password, role, is_active. -/
structure User where
  id : Nat
  email : String
  hashed_password : HashString
  role : String
  is_active : Bool
deriving DecidableEq, Repr

/-- Token claims: sub, role, id, token_type, exp. `sub` and `token_type` are
optional because the handlers read them with payload.get, which can yield
None. `exp` is a Nat timestamp. -/
structure Claims where
  sub : Option String
  role : String
  id : Nat
  token_type : Option String
  exp : Nat
deriving DecidableEq, Repr

/-- Modelled from the spec: an encoded token string is either a claims
payload correctly signed with the service secret, or a string whose
signature does not verify or whose structure is malformed. -/
inductive Token where
  | signed (claims : Claims)
  | malformed
deriving DecidableEq, Repr

/-- The two decode failure kinds of the Token Codec: expiry versus
signature/structure. -/
inductive DecodeError where
  | expired
  | invalid
deriving DecidableEq, Repr

/-- Modelled from the spec: Token Codec decode (jwt.decode with the
symmetric secret and fixed algorithm). Fails with the expiry kind when the
current time exceeds exp; fails with the invalid kind when the signature
does not verify or the structure is malformed, regardless of exp. -/
def jwtDecode (now : Nat) (t : Token) : Except DecodeError Claims :=
  match t with
  | .malformed => .error .invalid
  | .signed c => if c.exp < now then .error .expired else .ok c

/-- Token lifetimes, from app/config.py (not under src/): fixed process-wide
configuration, minutes-scale for access and days-scale for refresh. -/
structure Config where
  accessLifetime : Nat
  refreshLifetime : Nat
deriving DecidableEq, Repr

/-- Modelled from the spec: Token Issuer access-token constructor. Claims
carry the supplied sub, role and id, token_type "access", and an exp a
fixed configured lifetime past the current time. -/
def create_access_token (sub role : String) (id : Nat) (cfg : Config) (now : Nat) : Token :=
  .signed { sub := some sub, role := role, id := id,
            token_type := some "access", exp := now + cfg.accessLifetime }

/-- Modelled from the spec: Token Issuer refresh-token constructor, same
subject fields, token_type "refresh", longer configured lifetime. -/
def create_refresh_token (sub role : String) (id : Nat) (cfg : Config) (now : Nat) : Token :=
  .signed { sub := some sub, role := role, id := id,
            token_type := some "refresh", exp := now + cfg.refreshLifetime }

/-- An HTTPException as the handlers raise it: status code, detail string,
and the optional WWW-Authenticate header value. -/
structure ErrorResponse where
  status : Nat
  detail : String
  wwwAuthenticate : Option String
deriving DecidableEq, Repr

/-- The 409 raised by create_user when the email is already registered. -/
def duplicateEmailError : ErrorResponse :=
  { status := 409, detail := "Email already registered", wwwAuthenticate := none }

/-- The 401 raised by login on absent user, wrong password or inactive
identity: one shared object for all three causes. -/
def incorrect_email_or_password : ErrorResponse :=
  { status := 401, detail := "Incorrect email or password",
    wwwAuthenticate := some "Bearer" }

/-- The generic credentials_exception of refresh_access_token and
rotate_refresh_token. -/
def credentials_exception : ErrorResponse :=
  { status := 401, detail := "Could not validate refresh token",
    wwwAuthenticate := some "Bearer" }

/-- The distinct 401 refresh_access_token raises on jwt.ExpiredSignatureError. -/
def refreshExpiredError : ErrorResponse :=
  { status := 401, detail := "Refresh token has expired",
    wwwAuthenticate := some "Bearer" }

/-- The distinct 401 refresh_access_token raises when token_type is not
refresh. -/
def wrongTokenTypeError : ErrorResponse :=
  { status := 401, detail := "Invalid token type: expected \x27refresh\x27",
    wwwAuthenticate := some "Bearer" }

/-- db.scalars(select(UserModel).where(email == e, is_active == True)).first():
the first stored user with the given email that is active. -/
def lookupActive (db : List User) (email : String) : Option User :=
  db.find? (fun u => u.email == email && u.is_active)

/-- db.scalars(select(UserModel).where(email == e)).first(): the first stored
user with the given email, with no is_active filter. -/
def lookupByEmail (db : List User) (email : String) : Option User :=
  db.find? (fun u => u.email == email)

/-- Response of POST /users/ (201, the created user). -/
structure CreateUserResponse where
  status : Nat
  user : User
deriving DecidableEq, Repr

/-- Response of POST /users/token. -/
structure LoginResponse where
  status : Nat
  access_token : Token
  refresh_token : Token
  token_type : String
deriving DecidableEq, Repr

/-- Response of POST /users/access-token/refresh: a new access token only. -/
structure RefreshAccessResponse where
  status : Nat
  access_token : Token
  token_type : String
deriving DecidableEq, Repr

/-- Response of POST /users/refresh-token/rotate: a new refresh token only. -/
structure RotateResponse where
  status : Nat
  refresh_token : Token
  token_type : String
deriving DecidableEq, Repr

/-- create_user (POST /users/, status_code 201): checks email uniqueness with
no is_active filter, raising 409 before any insert; otherwise stores one new
user whose hashed_password is hash_password of the submitted plaintext and
returns it. The primary key, autoincremented by the store, is modelled as
the next index; is_active defaults to true for a new row. Each handler
returns its result together with the store it leaves behind. -/
def create_user (db : List User) (email password role : String) (salt : Nat) :
    Except ErrorResponse CreateUserResponse × List User :=
  match lookupByEmail db email with
  | some _ => (.error duplicateEmailError, db)
  | none =>
      let dbUser : User :=
        { id := db.length, email := email,
          hashed_password := hash_password password salt,
          role := role, is_active := true }
      (.ok { status := 201, user := dbUser }, db ++ [dbUser])

/-- login (POST /users/token): looks the email up requiring is_active, and
raises one shared 401 when no user is found or the password does not verify;
on success issues the access and refresh pair from the stored identity and
returns token_type bearer. -/
def login (cfg : Config) (now : Nat) (db : List User) (username password : String) :
    Except ErrorResponse LoginResponse × List User :=
  match lookupActive db username with
  | none => (.error incorrect_email_or_password, db)
  | some user =>
      if verify_password password user.hashed_password then
        (.ok { status := 200,
               access_token := create_access_token user.email user.role user.id cfg now,
               refresh_token := create_refresh_token user.email user.role user.id cfg now,
               token_type := "bearer" }, db)
      else
        (.error incorrect_email_or_password, db)

/-- refresh_access_token (POST /users/access-token/refresh): decodes the
presented token (expiry failure gets its own 401, signature/structure
failure the generic one), then requires token_type refresh (distinct 401),
then a present subject (generic 401), then an active stored identity with
that email (generic 401); on success issues a new access token from the
stored identity and leaves the store untouched. -/
def refresh_access_token (cfg : Config) (now : Nat) (db : List User) (tok : Token) :
    Except ErrorResponse RefreshAccessResponse × List User :=
  match jwtDecode now tok with
  | .error .expired => (.error refreshExpiredError, db)
  | .error .invalid => (.error credentials_exception, db)
  | .ok payload =>
      if payload.token_type ≠ some "refresh" then
        (.error wrongTokenTypeError, db)
      else
        match payload.sub with
        | none => (.error credentials_exception, db)
        | some email =>
            match lookupActive db email with
            | none => (.error credentials_exception, db)
            | some user =>
                (.ok { status := 200,
                       access_token := create_access_token user.email user.role user.id cfg now,
                       token_type := "bearer" }, db)

/-- rotate_refresh_token (POST /users/refresh-token/rotate): decodes the
presented token, mapping BOTH decode failure kinds to the one generic
credentials_exception; then requires, in a single combined test, a present
subject and token_type refresh (generic 401 again); then an active stored
identity (generic 401); on success issues a new refresh token only, from
the stored identity, and leaves the store untouched. -/
def rotate_refresh_token (cfg : Config) (now : Nat) (db : List User) (tok : Token) :
    Except ErrorResponse RotateResponse × List User :=
  match jwtDecode now tok with
  | .error _ => (.error credentials_exception, db)
  | .ok payload =>
      if payload.sub = none ∨ payload.token_type ≠ some "refresh" then
        (.error credentials_exception, db)
      else
        match payload.sub with
        | none => (.error credentials_exception, db)
        | some email =>
            match lookupActive db email with
            | none => (.error credentials_exception, db)
            | some user =>
                (.ok { status := 200,
                       refresh_token := create_refresh_token user.email user.role user.id cfg now,
                       token_type := "bearer" }, db)

/-- A concrete configuration used by witnesses and counterexamples. -/
def cfg0 : Config := { accessLifetime := 5, refreshLifetime := 100 }

/-- A concrete active user for witnesses and counterexamples. -/
def u0 : User :=
  { id := 1, email := "a@b", hashed_password := hash_password "pw" 7,
    role := "buyer", is_active := true }

/-- A one-user store for witnesses and counterexamples. -/
def db0 : List User := [u0]

/-- A refresh token for u0 issued at time 0 under cfg0 (exp 100). -/
def tokR : Token := create_refresh_token "a@b" "buyer" 1 cfg0 0

/-- The exp claim carried by a token; 0 for a malformed token. -/
def tokenExp : Token → Nat
  | .signed c => c.exp
  | .malformed => 0

/-- refresh_access_token performs no store write: every branch returns the
store it was given. -/
theorem refresh_access_preserves_store (cfg : Config) (now : Nat) (db : List User)
    (tok : Token) : (refresh_access_token cfg now db tok).2 = db := by
  unfold refresh_access_token
  repeat' split
  all_goals rfl

/-- rotate_refresh_token performs no store write either. -/
theorem rotate_preserves_store (cfg : Config) (now : Nat) (db : List User)
    (tok : Token) : (rotate_refresh_token cfg now db tok).2 = db := by
  unfold rotate_refresh_token
  repeat' split
  all_goals rfl

/-- login performs no store write. -/
theorem login_preserves_store (cfg : Config) (now : Nat) (db : List User)
    (username password : String) : (login cfg now db username password).2 = db := by
  unfold login
  repeat' split
  all_goals rfl

/-- C1: refresh_access_token fails with the expiry-kind 401 whenever decode
fails because the token is past exp, with the generic credentials_exception
whenever the signature or structure is bad, with the wrong-token-type 401
whenever decode succeeds but token_type is not refresh, and with the generic
401 when the subject is missing or no active identity carries that email;
the checks apply in that order, so expiry wins over the type check and a
missing subject is only reported after the type check. -/
theorem refresh_access_error_taxonomy (cfg : Config) (now : Nat) (db : List User)
    (tok : Token) :
    (jwtDecode now tok = .error .expired →
        (refresh_access_token cfg now db tok).1 = .error refreshExpiredError) ∧
    (jwtDecode now tok = .error .invalid →
        (refresh_access_token cfg now db tok).1 = .error credentials_exception) ∧
    (∀ c, jwtDecode now tok = .ok c → c.token_type ≠ some "refresh" →
        (refresh_access_token cfg now db tok).1 = .error wrongTokenTypeError) ∧
    (∀ c, jwtDecode now tok = .ok c → c.token_type = some "refresh" → c.sub = none →
        (refresh_access_token cfg now db tok).1 = .error credentials_exception) ∧
    (∀ c e, jwtDecode now tok = .ok c → c.token_type = some "refresh" →
        c.sub = some e → lookupActive db e = none →
        (refresh_access_token cfg now db tok).1 = .error credentials_exception) := by
  refine ⟨?_, ?_, ?_, ?_, ?_⟩
  · intro h; simp [refresh_access_token, h]
  · intro h; simp [refresh_access_token, h]
  · intro c h ht; simp [refresh_access_token, h, ht]
  · intro c h ht hs; simp [refresh_access_token, h, ht, hs]
  · intro c e h ht hs hl; simp [refresh_access_token, h, ht, hs, hl]

/-- Witness for C1: an expired token of access type still reports expiry, a
malformed token the generic 401, an unexpired access-type token with no
subject reports the wrong type (type before subject), a refresh token with
no subject the generic 401, and a refresh token of an unknown subject the
generic 401. -/
theorem refresh_access_error_taxonomy_witness :
    (refresh_access_token cfg0 10 db0
        (.signed { sub := some "a@b", role := "buyer", id := 1,
                   token_type := some "access", exp := 3 })).1 =
      .error refreshExpiredError ∧
    (refresh_access_token cfg0 10 db0 .malformed).1 = .error credentials_exception ∧
    (refresh_access_token cfg0 10 db0
        (.signed { sub := none, role := "buyer", id := 1,
                   token_type := some "access", exp := 50 })).1 =
      .error wrongTokenTypeError ∧
    (refresh_access_token cfg0 10 db0
        (.signed { sub := none, role := "buyer", id := 1,
                   token_type := some "refresh", exp := 50 })).1 =
      .error credentials_exception ∧
    (refresh_access_token cfg0 10 db0
        (.signed { sub := some "zz", role := "buyer", id := 1,
                   token_type := some "refresh", exp := 50 })).1 =
      .error credentials_exception :=
  ⟨(refresh_access_error_taxonomy cfg0 10 db0 _).1 rfl,
   (refresh_access_error_taxonomy cfg0 10 db0 .malformed).2.1 rfl,
   (refresh_access_error_taxonomy cfg0 10 db0 _).2.2.1 _ rfl (by decide),
   (refresh_access_error_taxonomy cfg0 10 db0 _).2.2.2.1 _ rfl rfl rfl,
   (refresh_access_error_taxonomy cfg0 10 db0 _).2.2.2.2 _ "zz" rfl rfl rfl rfl⟩

/-- C2 counterexample: an expired refresh token presented to
rotate_refresh_token yields the generic credentials_exception, while the
same token presented to refresh_access_token yields the distinct expiry
401 — so the two endpoints do NOT share error outcomes; likewise an
unexpired access-type token yields the generic 401 from rotate, not the
distinct wrong-token-type 401. -/
theorem rotate_distinct_errors_counterexample :
    (rotate_refresh_token cfg0 10 db0
        (.signed { sub := some "a@b", role := "buyer", id := 1,
                   token_type := some "refresh", exp := 3 })).1 =
      .error credentials_exception ∧
    (refresh_access_token cfg0 10 db0
        (.signed { sub := some "a@b", role := "buyer", id := 1,
                   token_type := some "refresh", exp := 3 })).1 =
      .error refreshExpiredError ∧
    credentials_exception ≠ refreshExpiredError ∧
    (rotate_refresh_token cfg0 10 db0
        (.signed { sub := some "a@b", role := "buyer", id := 1,
                   token_type := some "access", exp := 50 })).1 =
      .error credentials_exception ∧
    credentials_exception ≠ wrongTokenTypeError :=
  ⟨rfl, rfl, by decide, rfl, by decide⟩

/-- C2 amended: rotate_refresh_token applies the same validation checks as
refresh_access_token — decode, token-type and subject presence, active
identity lookup — and a token whose token_type is not refresh never
succeeds; but every failure, the expired and the malformed token included,
produces the single generic credentials_exception rather than the distinct
expiry or wrong-type errors of refresh_access_token. -/
theorem rotate_refresh_error_taxonomy (cfg : Config) (now : Nat) (db : List User)
    (tok : Token) :
    (∀ err, jwtDecode now tok = .error err →
        (rotate_refresh_token cfg now db tok).1 = .error credentials_exception) ∧
    (∀ c, jwtDecode now tok = .ok c →
        (c.sub = none ∨ c.token_type ≠ some "refresh") →
        (rotate_refresh_token cfg now db tok).1 = .error credentials_exception) ∧
    (∀ c e, jwtDecode now tok = .ok c → c.sub = some e →
        c.token_type = some "refresh" → lookupActive db e = none →
        (rotate_refresh_token cfg now db tok).1 = .error credentials_exception) ∧
    (∀ c r, jwtDecode now tok = .ok c →
        (rotate_refresh_token cfg now db tok).1 = .ok r →
        c.token_type = some "refresh" ∧ c.sub ≠ none) := by
  refine ⟨?_, ?_, ?_, ?_⟩
  · intro err h; simp [rotate_refresh_token, h]
  · intro c h hst
    simp only [rotate_refresh_token, h]
    rw [if_pos hst]
  · intro c e h hs ht hl
    simp [rotate_refresh_token, h, hs, ht, hl]
  · intro c r h hok
    by_cases ht : c.token_type = some "refresh"
    · refine ⟨ht, ?_⟩
      intro hs
      simp [rotate_refresh_token, h, hs] at hok
    · exfalso
      simp only [rotate_refresh_token, h] at hok
      rw [if_pos (Or.inr ht)] at hok
      exact absurd hok (by simp)

/-- Witness for C2: the expired, malformed, wrong-type, missing-subject and
unknown-subject cases all produce the one generic 401 from rotate, and a
successful rotation implies the presented token was refresh-typed with a
subject. -/
theorem rotate_refresh_error_taxonomy_witness :
    (rotate_refresh_token cfg0 10 db0
        (.signed { sub := some "a@b", role := "buyer", id := 1,
                   token_type := some "refresh", exp := 3 })).1 =
      .error credentials_exception ∧
    (rotate_refresh_token cfg0 10 db0 .malformed).1 = .error credentials_exception ∧
    (rotate_refresh_token cfg0 10 db0
        (.signed { sub := some "zz", role := "buyer", id := 1,
                   token_type := some "refresh", exp := 50 })).1 =
      .error credentials_exception ∧
    ((Claims.mk (some "a@b") "buyer" 1 (some "refresh") 100).token_type = some "refresh" ∧
      (Claims.mk (some "a@b") "buyer" 1 (some "refresh") 100).sub ≠ none) :=
  ⟨(rotate_refresh_error_taxonomy cfg0 10 db0 _).1 .expired rfl,
   (rotate_refresh_error_taxonomy cfg0 10 db0 .malformed).1 .invalid rfl,
   (rotate_refresh_error_taxonomy cfg0 10 db0 _).2.2.1 _ "zz" rfl rfl rfl rfl,
   (rotate_refresh_error_taxonomy cfg0 10 db0 tokR).2.2.2
     (Claims.mk (some "a@b") "buyer" 1 (some "refresh") 100)
     { status := 200,
       refresh_token := create_refresh_token "a@b" "buyer" 1 cfg0 10,
       token_type := "bearer" } rfl rfl⟩

/-- C3: the three login failure causes — absent email, wrong password, and
inactive identity — produce one identical observable response: the shared
401 with detail Incorrect email or password and the WWW-Authenticate Bearer
header, with the store untouched. The hypothesis covers all three causes:
every stored user carrying the email either fails password verification or
is inactive (vacuously so when the email is absent). -/
theorem login_failures_indistinguishable (cfg : Config) (now : Nat) (db : List User)
    (e p : String)
    (h : ∀ u, u ∈ db → u.email = e →
        verify_password p u.hashed_password = false ∨ u.is_active = false) :
    login cfg now db e p = (.error incorrect_email_or_password, db) ∧
    incorrect_email_or_password.status = 401 ∧
    incorrect_email_or_password.wwwAuthenticate = some "Bearer" := by
  refine ⟨?_, rfl, rfl⟩
  cases hfind : lookupActive db e with
  | none => simp [login, hfind]
  | some u =>
      have hfind' : List.find? (fun v => v.email == e && v.is_active) db = some u := hfind
      have hmem : u ∈ db := List.mem_of_find?_eq_some hfind'
      have hp := List.find?_some hfind'
      simp only [Bool.and_eq_true, beq_iff_eq] at hp
      have hemail : u.email = e := hp.1
      have hact : u.is_active = true := hp.2
      have hv : verify_password p u.hashed_password = false := by
        rcases h u hmem hemail with hv | hinact
        · exact hv
        · rw [hact] at hinact; cases hinact
      simp [login, hfind, hv]

/-- Witness for C3: a store holding the one active user u0 with password pw;
the unknown email, the wrong password against u0, and an inactivated copy
of u0 under a fresh email all yield the identical 401 response. -/
theorem login_failures_indistinguishable_witness :
    (login cfg0 10 db0 "nobody@b" "pw" = (.error incorrect_email_or_password, db0) ∧
      incorrect_email_or_password.status = 401 ∧
      incorrect_email_or_password.wwwAuthenticate = some "Bearer") ∧
    (login cfg0 10 db0 "a@b" "wrong" = (.error incorrect_email_or_password, db0) ∧
      incorrect_email_or_password.status = 401 ∧
      incorrect_email_or_password.wwwAuthenticate = some "Bearer") ∧
    (login cfg0 10 [{ u0 with email := "c@d", is_active := false }] "c@d" "pw" =
        (.error incorrect_email_or_password, [{ u0 with email := "c@d", is_active := false }]) ∧
      incorrect_email_or_password.status = 401 ∧
      incorrect_email_or_password.wwwAuthenticate = some "Bearer") :=
  ⟨login_failures_indistinguishable cfg0 10 db0 "nobody@b" "pw" (by decide),
   login_failures_indistinguishable cfg0 10 db0 "a@b" "wrong" (by decide),
   login_failures_indistinguishable cfg0 10 _ "c@d" "pw" (by decide)⟩

/-- Inversion of a successful refresh_access_token call: the token was
unexpired and refresh-typed, its subject names an active stored user, and
the response is the new access token for that user with token_type bearer. -/
theorem refresh_access_ok_elim (cfg : Config) (now : Nat) (db : List User) (c : Claims)
    (r : RefreshAccessResponse)
    (h : (refresh_access_token cfg now db (.signed c)).1 = .ok r) :
    ¬ c.exp < now ∧ c.token_type = some "refresh" ∧
    ∃ e u, c.sub = some e ∧ lookupActive db e = some u ∧
      r = { status := 200,
            access_token := create_access_token u.email u.role u.id cfg now,
            token_type := "bearer" } := by
  by_cases hexp : c.exp < now
  · exfalso; simp [refresh_access_token, jwtDecode, hexp] at h
  · refine ⟨hexp, ?_⟩
    by_cases ht : c.token_type = some "refresh"
    · refine ⟨ht, ?_⟩
      cases hs : c.sub with
      | none => exfalso; simp [refresh_access_token, jwtDecode, hexp, ht, hs] at h
      | some e =>
          cases hl : lookupActive db e with
          | none => exfalso; simp [refresh_access_token, jwtDecode, hexp, ht, hs, hl] at h
          | some u =>
              refine ⟨e, u, rfl, hl, ?_⟩
              simp [refresh_access_token, jwtDecode, hexp, ht, hs, hl] at h
              exact h.symm
    · exfalso; simp [refresh_access_token, jwtDecode, hexp, ht] at h

/-- Inversion of a successful rotate_refresh_token call: the token was
unexpired and refresh-typed with a present subject naming an active stored
user, and the response is the new refresh token for that user. -/
theorem rotate_ok_elim (cfg : Config) (now : Nat) (db : List User) (c : Claims)
    (r : RotateResponse)
    (h : (rotate_refresh_token cfg now db (.signed c)).1 = .ok r) :
    ¬ c.exp < now ∧ c.token_type = some "refresh" ∧
    ∃ e u, c.sub = some e ∧ lookupActive db e = some u ∧
      r = { status := 200,
            refresh_token := create_refresh_token u.email u.role u.id cfg now,
            token_type := "bearer" } := by
  by_cases hexp : c.exp < now
  · exfalso; simp [rotate_refresh_token, jwtDecode, hexp] at h
  · refine ⟨hexp, ?_⟩
    by_cases ht : c.token_type = some "refresh"
    · refine ⟨ht, ?_⟩
      cases hs : c.sub with
      | none => exfalso; simp [rotate_refresh_token, jwtDecode, hexp, ht, hs] at h
      | some e =>
          cases hl : lookupActive db e with
          | none => exfalso; simp [rotate_refresh_token, jwtDecode, hexp, ht, hs, hl] at h
          | some u =>
              refine ⟨e, u, rfl, hl, ?_⟩
              simp [rotate_refresh_token, jwtDecode, hexp, ht, hs, hl] at h
              exact h.symm
    · exfalso; simp [rotate_refresh_token, jwtDecode, hexp, ht] at h

/-- C4: refresh_access_token is non-destructive. A successful call leaves
the store exactly as it was, and since the presented refresh token is never
invalidated, a second call with the same token at any instant at which the
token is not yet past its exp succeeds as well. -/
theorem refresh_access_nondestructive (cfg : Config) (now now2 : Nat) (db : List User)
    (c : Claims) (r : RefreshAccessResponse)
    (h : (refresh_access_token cfg now db (.signed c)).1 = .ok r)
    (h2 : ¬ c.exp < now2) :
    (refresh_access_token cfg now db (.signed c)).2 = db ∧
    ∃ r2, (refresh_access_token cfg now2 db (.signed c)).1 = .ok r2 := by
  obtain ⟨hexp, ht, e, u, hs, hl, hr⟩ := refresh_access_ok_elim cfg now db c r h
  refine ⟨refresh_access_preserves_store cfg now db _,
    ⟨{ status := 200, access_token := create_access_token u.email u.role u.id cfg now2,
       token_type := "bearer" }, ?_⟩⟩
  simp [refresh_access_token, jwtDecode, h2, ht, hs, hl]

/-- Witness for C4: the refresh token tokR, accepted at time 10, leaves the
store unchanged and is accepted again at time 20, before its exp of 100. -/
theorem refresh_access_nondestructive_witness :
    (refresh_access_token cfg0 10 db0 tokR).2 = db0 ∧
    ∃ r2, (refresh_access_token cfg0 20 db0 tokR).1 = .ok r2 :=
  refresh_access_nondestructive cfg0 10 20 db0
    { sub := some "a@b", role := "buyer", id := 1, token_type := some "refresh", exp := 100 }
    { status := 200, access_token := create_access_token "a@b" "buyer" 1 cfg0 10,
      token_type := "bearer" }
    rfl (by decide)

/-- C5 counterexample: rotating a refresh token at the very instant it was
issued returns a token with the SAME exp — in fact the identical token —
so the new exp is not strictly later than the presented one. -/
theorem rotate_same_instant_counterexample :
    (rotate_refresh_token cfg0 0 db0 (create_refresh_token "a@b" "buyer" 1 cfg0 0)).1 =
      .ok { status := 200,
            refresh_token := create_refresh_token "a@b" "buyer" 1 cfg0 0,
            token_type := "bearer" } ∧
    ¬ tokenExp (create_refresh_token "a@b" "buyer" 1 cfg0 0) <
        tokenExp (create_refresh_token "a@b" "buyer" 1 cfg0 0) :=
  ⟨rfl, by decide⟩

/-- C5 amended: a successful rotation of a refresh token issued at or
before the current instant returns only a new refresh token, with an exp
at least that of the presented token, and strictly later whenever the
current instant is strictly past the issuance instant (at the issuance
instant itself the two exps coincide). -/
theorem rotate_refresh_expiry_monotone (cfg : Config) (now issued : Nat) (db : List User)
    (e ro : String) (i : Nat) (r : RotateResponse)
    (h : (rotate_refresh_token cfg now db (create_refresh_token e ro i cfg issued)).1 = .ok r)
    (hle : issued ≤ now) :
    r.token_type = "bearer" ∧
    tokenExp (create_refresh_token e ro i cfg issued) ≤ tokenExp r.refresh_token ∧
    (issued < now →
      tokenExp (create_refresh_token e ro i cfg issued) < tokenExp r.refresh_token) := by
  obtain ⟨hexp, ht, e2, u, hs, hl, hr⟩ :=
    rotate_ok_elim cfg now db
      { sub := some e, role := ro, id := i, token_type := some "refresh",
        exp := issued + cfg.refreshLifetime } r h
  subst hr
  refine ⟨rfl, ?_, ?_⟩
  · simp [tokenExp, create_refresh_token]
    omega
  · intro hlt
    simp [tokenExp, create_refresh_token]
    omega

/-- Witness for C5 amended: rotating at time 10 the refresh token issued at
time 0 yields exp 110, at least and indeed strictly past the presented
exp 100. -/
theorem rotate_refresh_expiry_monotone_witness :
    (RotateResponse.mk 200 (create_refresh_token "a@b" "buyer" 1 cfg0 10) "bearer").token_type
        = "bearer" ∧
    tokenExp (create_refresh_token "a@b" "buyer" 1 cfg0 0) ≤
      tokenExp (RotateResponse.mk 200 (create_refresh_token "a@b" "buyer" 1 cfg0 10) "bearer").refresh_token ∧
    tokenExp (create_refresh_token "a@b" "buyer" 1 cfg0 0) <
      tokenExp (RotateResponse.mk 200 (create_refresh_token "a@b" "buyer" 1 cfg0 10) "bearer").refresh_token :=
  ⟨(rotate_refresh_expiry_monotone cfg0 10 0 db0 "a@b" "buyer" 1
      (RotateResponse.mk 200 (create_refresh_token "a@b" "buyer" 1 cfg0 10) "bearer")
      rfl (by decide)).1,
   (rotate_refresh_expiry_monotone cfg0 10 0 db0 "a@b" "buyer" 1
      (RotateResponse.mk 200 (create_refresh_token "a@b" "buyer" 1 cfg0 10) "bearer")
      rfl (by decide)).2.1,
   (rotate_refresh_expiry_monotone cfg0 10 0 db0 "a@b" "buyer" 1
      (RotateResponse.mk 200 (create_refresh_token "a@b" "buyer" 1 cfg0 10) "bearer")
      rfl (by decide)).2.2 (by decide)⟩

/-- C6: when the submitted email resolves to an active stored identity and
the password verifies against its hash, login returns 200 with an access
token, a refresh token and token_type bearer, both tokens carrying the
stored email as sub together with the stored role and id. -/
theorem login_success_issues_pair (cfg : Config) (now : Nat) (db : List User)
    (e p : String) (u : User)
    (hfind : lookupActive db e = some u)
    (hpw : verify_password p u.hashed_password = true) :
    login cfg now db e p =
      (.ok { status := 200,
             access_token := Token.signed
               { sub := some u.email, role := u.role, id := u.id,
                 token_type := some "access", exp := now + cfg.accessLifetime },
             refresh_token := Token.signed
               { sub := some u.email, role := u.role, id := u.id,
                 token_type := some "refresh", exp := now + cfg.refreshLifetime },
             token_type := "bearer" }, db) := by
  simp [login, hfind, hpw, create_access_token, create_refresh_token]

/-- Witness for C6: logging in as the active user u0 with the correct
password pw returns the bearer pair carrying sub a@b, role buyer, id 1. -/
theorem login_success_issues_pair_witness :
    login cfg0 10 db0 "a@b" "pw" =
      (.ok { status := 200,
             access_token := Token.signed
               { sub := some "a@b", role := "buyer", id := 1,
                 token_type := some "access", exp := 15 },
             refresh_token := Token.signed
               { sub := some "a@b", role := "buyer", id := 1,
                 token_type := some "refresh", exp := 110 },
             token_type := "bearer" }, db0) :=
  login_success_issues_pair cfg0 10 db0 "a@b" "pw" u0 rfl (by decide)

/-- C7: create_user returns the 409 duplicate-email error and leaves the
store exactly as it was whenever some stored user already carries the
submitted email (the check precedes any insert); otherwise it appends
exactly one new user, storing the hash of the submitted plaintext, and
returns 201 with that user. -/
theorem create_user_registration (db : List User) (e p ro : String) (salt : Nat) :
    ((∃ u ∈ db, u.email = e) →
        create_user db e p ro salt = (.error duplicateEmailError, db) ∧
        duplicateEmailError.status = 409) ∧
    ((∀ u ∈ db, u.email ≠ e) →
        create_user db e p ro salt =
          (.ok { status := 201,
                 user := { id := db.length, email := e,
                           hashed_password := hash_password p salt,
                           role := ro, is_active := true } },
           db ++ [{ id := db.length, email := e,
                    hashed_password := hash_password p salt,
                    role := ro, is_active := true }])) := by
  constructor
  · rintro ⟨u, hu, he⟩
    cases hfind : lookupByEmail db e with
    | some v => exact ⟨by simp [create_user, hfind], rfl⟩
    | none =>
        exfalso
        have hnone : List.find? (fun v => v.email == e) db = none := hfind
        rw [List.find?_eq_none] at hnone
        exact absurd (beq_iff_eq.mpr he) (by simpa using hnone u hu)
  · intro h
    have hfind : lookupByEmail db e = none := by
      unfold lookupByEmail
      rw [List.find?_eq_none]
      intro x hx
      simp [h x hx]
    simp [create_user, hfind]

/-- Witness for C7: registering a@b against the store holding u0 is the 409
conflict leaving the store as it was, while registering the fresh email
new@b appends exactly the one new user with the hashed password. -/
theorem create_user_registration_witness :
    (create_user db0 "a@b" "x" "seller" 3 = (.error duplicateEmailError, db0) ∧
      duplicateEmailError.status = 409) ∧
    create_user db0 "new@b" "x" "seller" 3 =
      (.ok { status := 201,
             user := { id := 1, email := "new@b",
                       hashed_password := hash_password "x" 3,
                       role := "seller", is_active := true } },
       db0 ++ [{ id := 1, email := "new@b",
                 hashed_password := hash_password "x" 3,
                 role := "seller", is_active := true }]) :=
  ⟨(create_user_registration db0 "a@b" "x" "seller" 3).1 ⟨u0, by decide, rfl⟩,
   (create_user_registration db0 "new@b" "x" "seller" 3).2 (by decide)⟩

/-- C8: hash-then-verify round-trips true for every plaintext and salt,
verify fails for every distinct plaintext, and verify is true exactly when
the candidate re-hashes to the stored digest under the stored salt. -/
theorem hash_verify_roundtrip (p q : String) (salt : Nat) :
    verify_password p (hash_password p salt) = true ∧
    (q ≠ p → verify_password q (hash_password p salt) = false) ∧
    (verify_password q (hash_password p salt) = true ↔
      pwDigest (hash_password p salt).salt q = (hash_password p salt).digest) := by
  refine ⟨?_, ?_, ?_⟩
  · simp [verify_password, hash_password]
  · intro hne
    simp only [verify_password, hash_password, pwDigest, beq_eq_false_iff_ne, ne_eq,
      Digest.mk.injEq, true_and]
    exact hne
  · simp [verify_password, hash_password]

/-- Witness for C8: the stored hash of pw under salt 7 verifies pw and
rejects the distinct plaintext x. -/
theorem hash_verify_roundtrip_witness :
    verify_password "pw" (hash_password "pw" 7) = true ∧
    verify_password "x" (hash_password "pw" 7) = false ∧
    (verify_password "x" (hash_password "pw" 7) = true ↔
      pwDigest (hash_password "pw" 7).salt "x" = (hash_password "pw" 7).digest) :=
  ⟨(hash_verify_roundtrip "pw" "x" 7).1,
   (hash_verify_roundtrip "pw" "x" 7).2.1 (by decide),
   (hash_verify_roundtrip "pw" "x" 7).2.2⟩

/-- C9: every token minted by a successful refresh_access_token or
rotate_refresh_token call carries the sub, role and id of the identity
currently stored under the presented token's subject email — the role and
id inside the presented payload play no part (they are unconstrained here). -/
theorem refreshed_claims_from_store (cfg : Config) (now : Nat) (db : List User)
    (c : Claims) :
    (∀ r, (refresh_access_token cfg now db (.signed c)).1 = .ok r →
        ∃ e u, c.sub = some e ∧ lookupActive db e = some u ∧
          r.access_token = Token.signed
            { sub := some u.email, role := u.role, id := u.id,
              token_type := some "access", exp := now + cfg.accessLifetime }) ∧
    (∀ r, (rotate_refresh_token cfg now db (.signed c)).1 = .ok r →
        ∃ e u, c.sub = some e ∧ lookupActive db e = some u ∧
          r.refresh_token = Token.signed
            { sub := some u.email, role := u.role, id := u.id,
              token_type := some "refresh", exp := now + cfg.refreshLifetime }) := by
  constructor
  · intro r h
    obtain ⟨_, _, e, u, hs, hl, hr⟩ := refresh_access_ok_elim cfg now db c r h
    exact ⟨e, u, hs, hl, by rw [hr]; rfl⟩
  · intro r h
    obtain ⟨_, _, e, u, hs, hl, hr⟩ := rotate_ok_elim cfg now db c r h
    exact ⟨e, u, hs, hl, by rw [hr]; rfl⟩

/-- Witness for C9: a refresh token whose payload claims role admin and id
99 for the subject a@b still yields tokens carrying the STORED role buyer
and id 1 of u0, from both endpoints. -/
theorem refreshed_claims_from_store_witness :
    (∃ e u, (Claims.mk (some "a@b") "admin" 99 (some "refresh") 100).sub = some e ∧
        lookupActive db0 e = some u ∧
        (RefreshAccessResponse.mk 200 (create_access_token "a@b" "buyer" 1 cfg0 10)
            "bearer").access_token =
          Token.signed { sub := some u.email, role := u.role, id := u.id,
                         token_type := some "access", exp := 10 + cfg0.accessLifetime }) ∧
    (∃ e u, (Claims.mk (some "a@b") "admin" 99 (some "refresh") 100).sub = some e ∧
        lookupActive db0 e = some u ∧
        (RotateResponse.mk 200 (create_refresh_token "a@b" "buyer" 1 cfg0 10)
            "bearer").refresh_token =
          Token.signed { sub := some u.email, role := u.role, id := u.id,
                         token_type := some "refresh", exp := 10 + cfg0.refreshLifetime }) :=
  ⟨(refreshed_claims_from_store cfg0 10 db0
      (Claims.mk (some "a@b") "admin" 99 (some "refresh") 100)).1
      (RefreshAccessResponse.mk 200 (create_access_token "a@b" "buyer" 1 cfg0 10) "bearer")
      rfl,
   (refreshed_claims_from_store cfg0 10 db0
      (Claims.mk (some "a@b") "admin" 99 (some "refresh") 100)).2
      (RotateResponse.mk 200 (create_refresh_token "a@b" "buyer" 1 cfg0 10) "bearer")
      rfl⟩

/-- C10: the duplicate-email check of create_user carries no is_active
filter, unlike the login and refresh lookups — so a stored user that is
deactivated still blocks a new registration under its email with the 409,
leaving the store unchanged. -/
theorem register_conflict_ignores_inactive (db : List User) (e p ro : String)
    (salt : Nat) (u : User)
    (hu : u ∈ db) (he : u.email = e) (_hinactive : u.is_active = false) :
    create_user db e p ro salt = (.error duplicateEmailError, db) := by
  cases hfind : lookupByEmail db e with
  | some v => simp [create_user, hfind]
  | none =>
      exfalso
      have hnone : List.find? (fun v => v.email == e) db = none := hfind
      rw [List.find?_eq_none] at hnone
      exact absurd (beq_iff_eq.mpr he) (by simpa using hnone u hu)

/-- Witness for C10: a store holding only a deactivated copy of u0 still
rejects a fresh registration under a@b with the 409 conflict. -/
theorem register_conflict_ignores_inactive_witness :
    create_user [{ u0 with is_active := false }] "a@b" "x" "seller" 3 =
      (.error duplicateEmailError, [{ u0 with is_active := false }]) :=
  register_conflict_ignores_inactive [{ u0 with is_active := false }] "a@b" "x" "seller" 3
    { u0 with is_active := false } (by decide) rfl rfl

end Ecommerce
